import Mathlib

/- Shallow embedding of the ipfs-swarm-cli tool.

   Sources: src/index.js (main variant) and src/unnamed/part_001 (the
   Tailscale variant of the same program; only its start action differs in a
   way the claims need).

   Modeling conventions:
   - The filesystem is an association list of paths to string contents,
     covering the canonical swarm key file, the copy installed into the node
     data directory, and any caller supplied key files. The persisted JSON
     configuration record and the node data directory marker are kept as
     dedicated, structured fields of the state (config : Option Cfg and
     ipfsInitialized : Bool) since the program reads them back structurally.
   - JavaScript null and undefined are both modeled as Option.none: the
     program only ever tests these fields for truthiness, and JSON
     serialization drops undefined while keeping null, a distinction no
     observable behavior of the tool depends on; empty strings are kept and
     truthiness is modeled explicitly.
   - Every external child process invocation is logged as a Cmd value; the
     success or failure of external commands, the generated random key
     material, clock readings, and daemon reachability probes are oracle
     inputs (Env, StartEnv, TsStartEnv).
   - The success of the whole apt install sequence, of the Kubo download
     sequence and of the ipfs config command sequence are each collapsed to a
     single oracle boolean: the claims under study never distinguish which
     command inside one of those sequences failed. The command log of a
     failing configuration sequence records the planned command list; the
     exact failure prefix is not tracked.
   - Tool presence (wget, curl, net-tools, openssl) is collapsed to one
     boolean toolsInstalled, and Kubo presence to kuboInstalled, since the
     program only branches on all-present versus some-missing. -/

namespace IpfsSwarmCli

inductive NodeType
  | bootstrap
  | regular
deriving DecidableEq

/-- Persisted configuration record, the shape written by saveCfg in
src/index.js. The swarmKeyPath field is added to the record by the
Object.assign of the interactive or command line answers. -/
structure Cfg where
  nodeType : NodeType
  swarmKey : Option String
  basePort : Nat
  bootstrapMultiaddr : Option String
  nodeId : Option String
  lastStarted : Option String
  swarmKeyPath : Option String
deriving DecidableEq

/-- The default record created by loadCfg when no config file exists. -/
def defaultCfg : Cfg :=
  { nodeType := NodeType.bootstrap, swarmKey := none, basePort := 4001,
    bootstrapMultiaddr := none, nodeId := none, lastStarted := none,
    swarmKeyPath := none }

/-- One external child process invocation. -/
inductive Cmd
  | execLive (cmd : String) (args : List String)
  | execSilent (cmd : String) (args : List String)
  | spawnDetached (cmd : String) (args : List String)
deriving DecidableEq

def SWARM_KEY_PATH : String := "~/.ipfs-swarm/swarm.key"

def IPFS_SWARM_KEY_PATH : String := "~/.ipfs/swarm.key"

def getFile (p : String) : List (String × String) → Option String
  | [] => none
  | (q, v) :: rest => if q = p then some v else getFile p rest

def setFile (p v : String) : List (String × String) → List (String × String)
  | [] => [(p, v)]
  | (q, w) :: rest => if q = p then (p, v) :: rest else (q, w) :: setFile p v rest

def delFile (p : String) : List (String × String) → List (String × String)
  | [] => []
  | (q, w) :: rest => if q = p then delFile p rest else (q, w) :: delFile p rest

/-- Abstract machine state as the CLI observes it. -/
structure St where
  configDirExists : Bool
  config : Option Cfg
  files : List (String × String)
  ipfsInitialized : Bool
  daemonRunning : Bool
  toolsInstalled : Bool
  kuboInstalled : Bool
deriving DecidableEq

/-- JavaScript truthiness of a nullable string field. -/
def truthy : Option String → Bool
  | none => false
  | some s => if s = "" then false else true

def fileExists (s : St) (p : String) : Bool :=
  (getFile p s.files).isSome

/-- saveCfg writes the record to the config file. -/
def saveCfg (c : Cfg) (s : St) : St :=
  { s with config := some c }

/-- loadCfg creates the config directory and a default record when absent,
then reads the record back: a side effecting read. -/
def loadCfg (s : St) : St × Cfg :=
  match s.config with
  | some c => ({ s with configDirExists := true }, c)
  | none => ({ s with configDirExists := true, config := some defaultCfg }, defaultCfg)

/-- The three line swarm key record: format tag, encoding tag, hex payload. -/
def keyFileContent (hexPayload : String) : String :=
  "/key/swarm/psk/1.0.0/\n/base16/\n" ++ hexPayload

/-- generateSwarmKey: treat an existing key file as success and return its
path; otherwise write a fresh key. The random payload is an oracle input. -/
def generateSwarmKey (randomHex : String) (s : St) : St × String :=
  match getFile SWARM_KEY_PATH s.files with
  | some _ => (s, SWARM_KEY_PATH)
  | none =>
    ({ s with files := setFile SWARM_KEY_PATH (keyFileContent randomHex) s.files },
      SWARM_KEY_PATH)

/- ----- the Node Configurator: configureIpfs command plan ----- -/

def apiAddrStr (p : Nat) : String := "/ip4/127.0.0.1/tcp/" ++ toString (p + 1000)

def gatewayAddrStr (p : Nat) : String := "/ip4/127.0.0.1/tcp/" ++ toString (p + 4080)

def swarmAddrsStr (p : Nat) : String :=
  "[\"/ip4/0.0.0.0/tcp/" ++ toString p ++ "\",\"/ip6/::/tcp/" ++ toString p ++ "\"]"

def mdnsCmd : Cmd := Cmd.execLive "ipfs" ["config", "--bool", "Discovery.MDNS.Enabled", "false"]

def routingCmd : Cmd := Cmd.execLive "ipfs" ["config", "Routing.Type", "dht"]

def autoTlsCmd : Cmd := Cmd.execLive "ipfs" ["config", "--json", "AutoTLS", "\x7b\"Enabled\":false\x7d"]

def connMgrCmd : Cmd :=
  Cmd.execLive "ipfs" ["config", "--json", "Swarm.ConnMgr", "\x7b\"LowWater\":10,\"HighWater\":100\x7d"]

def swarmAddrsCmd (p : Nat) : Cmd := Cmd.execLive "ipfs" ["config", "--json", "Addresses.Swarm", swarmAddrsStr p]

def apiAddrCmd (p : Nat) : Cmd := Cmd.execLive "ipfs" ["config", "Addresses.API", apiAddrStr p]

def gatewayAddrCmd (p : Nat) : Cmd := Cmd.execLive "ipfs" ["config", "Addresses.Gateway", gatewayAddrStr p]

def bootstrapRmAllCmd : Cmd := Cmd.execLive "ipfs" ["bootstrap", "rm", "--all"]

def bootstrapAddCmd (addr : String) : Cmd := Cmd.execLive "ipfs" ["bootstrap", "add", addr]

/-- The ordered command plan configureIpfs issues, as a pure function of the
record, mirroring src/index.js lines 193 to 224. -/
def configureIpfsCmds (cfg : Cfg) : List Cmd :=
  [mdnsCmd, routingCmd, autoTlsCmd, connMgrCmd,
    swarmAddrsCmd cfg.basePort, apiAddrCmd cfg.basePort, gatewayAddrCmd cfg.basePort,
    bootstrapRmAllCmd]
  ++ (if cfg.nodeType = NodeType.regular ∧ truthy cfg.bootstrapMultiaddr = true then
        [bootstrapAddCmd (cfg.bootstrapMultiaddr.getD "")]
      else [])

/-- Recognizes a bootstrap add command. -/
def isBootstrapAdd : Cmd → Bool
  | Cmd.execLive "ipfs" ("bootstrap" :: "add" :: _) => true
  | _ => false

/- ----- the init command of src/index.js ----- -/

/-- Oracle for the init command: success of the apt install sequence, of the
Kubo download sequence, of the one time ipfs init call and of the ipfs
configuration command sequence, plus the random key payload. -/
structure Env where
  aptOk : Bool
  kuboOk : Bool
  ipfsInitOk : Bool
  configOk : Bool
  freshKey : String
deriving DecidableEq

/-- The answers record produced either by the interactive prompts or by the
command line options; Object.assign copies all four fields onto the loaded
record, absent option values becoming undefined (here none). -/
structure Answers where
  nodeType : NodeType
  basePort : Nat
  swarmKeyPath : Option String
  bootstrapMultiaddr : Option String
deriving DecidableEq

/-- Object.assign(cfg, answers): overwrite exactly the answer fields. -/
def applyAnswers (c : Cfg) (a : Answers) : Cfg :=
  { c with nodeType := a.nodeType, basePort := a.basePort,
           swarmKeyPath := a.swarmKeyPath, bootstrapMultiaddr := a.bootstrapMultiaddr }

/-- Result of one init step: updated state, logged commands, success flag. -/
structure StepOut where
  st : St
  cmds : List Cmd
  ok : Bool
deriving DecidableEq

/-- Result of a whole command invocation; ok = false models process.exit(1). -/
structure RunResult where
  state : St
  cmds : List Cmd
  ok : Bool
deriving DecidableEq

def aptInstallCmd : Cmd :=
  Cmd.execLive "sudo" ["apt-get", "install", "--no-upgrade", "-y", "wget", "curl", "net-tools", "openssl"]

def installToolsRun (env : Env) (s : St) : StepOut :=
  if s.toolsInstalled then { st := s, cmds := [], ok := true }
  else if env.aptOk then
    { st := { s with toolsInstalled := true }, cmds := [aptInstallCmd], ok := true }
  else { st := s, cmds := [aptInstallCmd], ok := false }

def kuboProbeCmd : Cmd := Cmd.execSilent "/usr/local/bin/ipfs" ["version"]

def kuboTarName : String := "kubo_v0.35.0_linux-amd64.tar.gz"

def kuboInstallCmds : List Cmd :=
  [Cmd.execLive "wget"
      ["-q", "https://github.com/ipfs/kubo/releases/download/v0.35.0/" ++ kuboTarName,
        "-O", "/tmp/" ++ kuboTarName],
    Cmd.execLive "tar" ["-xzf", "/tmp/" ++ kuboTarName, "-C", "/tmp"],
    Cmd.execLive "sudo" ["cp", "/tmp/kubo/ipfs", "/usr/local/bin/ipfs"],
    Cmd.execLive "sudo" ["chmod", "+x", "/usr/local/bin/ipfs"],
    Cmd.execLive "rm" ["-rf", "/tmp/kubo", "/tmp/" ++ kuboTarName],
    Cmd.execLive "/usr/local/bin/ipfs" ["version"]]

def installKuboRun (env : Env) (s : St) : StepOut :=
  if s.kuboInstalled then { st := s, cmds := [kuboProbeCmd], ok := true }
  else if env.kuboOk then
    { st := { s with kuboInstalled := true }, cmds := kuboProbeCmd :: kuboInstallCmds, ok := true }
  else { st := s, cmds := kuboProbeCmd :: kuboInstallCmds, ok := false }

def shutdownCmd : Cmd := Cmd.execSilent "ipfs" ["shutdown"]

def pkillCmd : Cmd := Cmd.execSilent "pkill" ["-f", "ipfs daemon"]

/-- killDaemon: graceful shutdown, else best effort pkill; never an error. -/
def killDaemonRun (s : St) : StepOut :=
  if s.daemonRunning then
    { st := { s with daemonRunning := false }, cmds := [shutdownCmd], ok := true }
  else { st := s, cmds := [shutdownCmd, pkillCmd], ok := true }

def ipfsInitCmd : Cmd := Cmd.execLive "ipfs" ["init", "--profile=server"]

def initializeIpfsRun (env : Env) (s : St) : StepOut :=
  if s.ipfsInitialized then { st := s, cmds := [], ok := true }
  else if env.ipfsInitOk then
    { st := { s with ipfsInitialized := true }, cmds := [ipfsInitCmd], ok := true }
  else { st := s, cmds := [ipfsInitCmd], ok := false }

/-- The swarm key step of init: for a bootstrap node generate (or keep) the
canonical key and record its path, for a regular node record the caller
supplied path; either way persist the record. -/
def swarmKeyStep (env : Env) (cfg : Cfg) (s : St) : St × Cfg :=
  match cfg.nodeType with
  | NodeType.bootstrap =>
    let g := generateSwarmKey env.freshKey s
    let cfg2 := { cfg with swarmKey := some g.2 }
    (saveCfg cfg2 g.1, cfg2)
  | NodeType.regular =>
    let cfg2 := { cfg with swarmKey := cfg.swarmKeyPath }
    (saveCfg cfg2 s, cfg2)

/-- configureIpfs: install the swarm key copy when the record names one
(failing like installSwarmKey when the source is missing), then issue the
configuration command plan. -/
def configureIpfsRun (env : Env) (cfg : Cfg) (s : St) : StepOut :=
  match cfg.swarmKey with
  | some p =>
    if p = "" then { st := s, cmds := configureIpfsCmds cfg, ok := env.configOk }
    else
      match getFile p s.files with
      | none => { st := s, cmds := [], ok := false }
      | some content =>
        { st := { s with files := setFile IPFS_SWARM_KEY_PATH content s.files },
          cmds := configureIpfsCmds cfg, ok := env.configOk }
  | none => { st := s, cmds := configureIpfsCmds cfg, ok := env.configOk }

/-- The init step sequence with fail fast semantics. -/
def initSteps (env : Env) (cfg : Cfg) (s : St) : RunResult :=
  let o1 := installToolsRun env s
  if o1.ok then
    let o2 := installKuboRun env o1.st
    if o2.ok then
      let o3 := killDaemonRun o2.st
      let o4 := initializeIpfsRun env o3.st
      if o4.ok then
        let k := swarmKeyStep env cfg o4.st
        let o6 := configureIpfsRun env k.2 k.1
        { state := o6.st, cmds := o1.cmds ++ o2.cmds ++ o3.cmds ++ o4.cmds ++ o6.cmds,
          ok := o6.ok }
      else { state := o4.st, cmds := o1.cmds ++ o2.cmds ++ o3.cmds ++ o4.cmds, ok := false }
    else { state := o2.st, cmds := o1.cmds ++ o2.cmds, ok := false }
  else { state := o1.st, cmds := o1.cmds, ok := false }

/-- The regular node validation of init, src/index.js lines 361 to 371: the
two checks that each call process.exit(1). -/
def validationFailed (s : St) (cfg : Cfg) : Bool :=
  decide (cfg.nodeType = NodeType.regular) &&
    (!truthy cfg.swarmKeyPath || !fileExists s (cfg.swarmKeyPath.getD "")
      || !truthy cfg.bootstrapMultiaddr)

/-- The whole init action on a given answers record: side effecting load,
Object.assign, validation, then the step plan. -/
def initRun (ans : Answers) (env : Env) (s0 : St) : RunResult :=
  let l := loadCfg s0
  let cfg := applyAnswers l.2 ans
  if validationFailed l.1 cfg then { state := l.1, cmds := [], ok := false }
  else initSteps env cfg l.1

/-- The path the swarm key is read from during configureIpfs, as determined
by the role: the canonical generated key for a bootstrap node, the caller
supplied path for a regular node. -/
def keySourcePath (ans : Answers) : String :=
  match ans.nodeType with
  | NodeType.bootstrap => SWARM_KEY_PATH
  | NodeType.regular => ans.swarmKeyPath.getD ""

/-- The record a successful init run persists, as a function of the answers
and the record the run loaded. -/
def initFinalCfg (ans : Answers) (base : Cfg) : Cfg :=
  match ans.nodeType with
  | NodeType.bootstrap => { applyAnswers base ans with swarmKey := some SWARM_KEY_PATH }
  | NodeType.regular => { applyAnswers base ans with swarmKey := ans.swarmKeyPath }

/-- Substring scan for the five character p2p segment marker. -/
def hasP2pChars : List Char → Bool
  | '/' :: 'p' :: '2' :: 'p' :: '/' :: _ => true
  | _ :: rest => hasP2pChars rest
  | [] => false

/-- The inquirer validator of the interactive bootstrapMultiaddr prompt,
src/index.js line 347: addr and addr.includes of the p2p segment. -/
def hasP2pSegment (addr : String) : Bool :=
  hasP2pChars addr.data

def bootstrapAddrValidate (addr : String) : Bool :=
  truthy (some addr) && hasP2pSegment addr

/- ----- the start command of src/index.js ----- -/

/-- Oracle for the start command: the reachability probe outcome for each
polling round, the clock reading, and the identity query result (none models
a getPeerId failure). -/
structure StartEnv where
  probe : Nat → Bool
  nowTs : String
  peerId : Option String

inductive StartOutcome
  | alreadyRunning
  | timeoutFatal
  | startedPersisted
  | startedInfoOnly
deriving DecidableEq

structure StartResult where
  state : St
  cmds : List Cmd
  outcome : StartOutcome
  polls : Nat
deriving DecidableEq

/-- Process exit status of the start command per outcome: only the polling
timeout calls process.exit(1). -/
def startExitCode : StartOutcome → Nat
  | StartOutcome.timeoutFatal => 1
  | _ => 0

/-- Failure taxonomy: the timeout branch prints its own daemon failed to
start report, distinct from the command failed report of execLive. -/
inductive FailureKind
  | timeoutKind
  | toolFailureKind
deriving DecidableEq

def startFailure : StartOutcome → Option FailureKind
  | StartOutcome.timeoutFatal => some FailureKind.timeoutKind
  | _ => none

/-- waitForDaemon polling loop: one probe per one second sleep, bounded by
maxWaitMs. Returns whether the daemon became reachable and how many probe
rounds ran. -/
def waitForDaemonAux (probe : Nat → Bool) : Nat → Nat → Bool × Nat
  | _, 0 => (false, 0)
  | i, Nat.succ fuel =>
    if probe i then (true, 1)
    else
      let r := waitForDaemonAux probe (i + 1) fuel
      (r.1, r.2 + 1)

def waitForDaemon (probe : Nat → Bool) (maxWaitMs : Nat) : Bool × Nat :=
  waitForDaemonAux probe 0 (maxWaitMs / 1000)

def peersProbeCmd : Cmd := Cmd.execSilent "ipfs" ["swarm", "peers"]

def spawnDaemonCmd : Cmd := Cmd.spawnDetached "ipfs" ["daemon"]

def peerIdProbeCmd : Cmd := Cmd.execSilent "ipfs" ["id"]

/-- The start action, src/index.js lines 440 to 505. Note that saveCfg runs
only inside the try block after a successful getPeerId. -/
def startRun (env : StartEnv) (s0 : St) : StartResult :=
  let l := loadCfg s0
  let s1 := l.1
  let cfg := l.2
  if s1.daemonRunning then
    { state := s1, cmds := [peersProbeCmd], outcome := StartOutcome.alreadyRunning, polls := 0 }
  else
    let kd := killDaemonRun s1
    let w := waitForDaemon env.probe 20000
    let cmds0 := peersProbeCmd ::
      (kd.cmds ++ [spawnDaemonCmd] ++ List.replicate w.2 peersProbeCmd)
    if w.1 then
      let cfg1 := { cfg with lastStarted := some env.nowTs }
      match env.peerId with
      | some pid =>
        let cfg2 := { cfg1 with nodeId := some pid }
        { state := { kd.st with daemonRunning := true, config := some cfg2 },
          cmds := cmds0 ++ [peerIdProbeCmd], outcome := StartOutcome.startedPersisted,
          polls := w.2 }
      | none =>
        { state := { kd.st with daemonRunning := true },
          cmds := cmds0 ++ [peerIdProbeCmd], outcome := StartOutcome.startedInfoOnly,
          polls := w.2 }
    else { state := kd.st, cmds := cmds0, outcome := StartOutcome.timeoutFatal, polls := w.2 }

/- ----- the clean command of src/index.js ----- -/

def rmIpfsDirCmd : Cmd := Cmd.execLive "rm" ["-rf", "~/.ipfs"]

def rmConfigDirCmd : Cmd := Cmd.execLive "rm" ["-rf", "~/.ipfs-swarm"]

/-- The clean action: a declined confirmation returns before any effect; an
affirmed one stops the daemon and removes both directories. Directory
existence probes of the affirmative branch are abstracted: the removal
commands are always logged there. -/
def cleanRun (confirm : Bool) (s : St) : RunResult :=
  if confirm then
    let kd := killDaemonRun s
    let f2 := delFile IPFS_SWARM_KEY_PATH kd.st.files
    let s2 := { kd.st with ipfsInitialized := false, files := f2 }
    let f3 := delFile SWARM_KEY_PATH s2.files
    let s3 := { s2 with configDirExists := false, config := none, files := f3 }
    { state := s3, cmds := kd.cmds ++ [rmIpfsDirCmd, rmConfigDirCmd], ok := true }
  else { state := s, cmds := [], ok := true }

/- ----- the Tailscale variant, src/unnamed/part_001 ----- -/

inductive NetworkType
  | normal
  | tailscale
deriving DecidableEq

/-- Persisted record of the Tailscale variant. -/
structure TsCfg where
  nodeType : NodeType
  networkType : NetworkType
  swarmKey : Option String
  basePort : Nat
  bootstrapMultiaddr : Option String
  nodeId : Option String
  lastStarted : Option String
  tailscaleIP : Option String
  swarmKeyPath : Option String
deriving DecidableEq

def defaultTsCfg : TsCfg :=
  { nodeType := NodeType.bootstrap, networkType := NetworkType.normal, swarmKey := none,
    basePort := 4001, bootstrapMultiaddr := none, nodeId := none, lastStarted := none,
    tailscaleIP := none, swarmKeyPath := none }

structure TsSt where
  configDirExists : Bool
  config : Option TsCfg
  files : List (String × String)
  ipfsInitialized : Bool
  daemonRunning : Bool
deriving DecidableEq

def loadCfgTs (s : TsSt) : TsSt × TsCfg :=
  match s.config with
  | some c => ({ s with configDirExists := true }, c)
  | none => ({ s with configDirExists := true, config := some defaultTsCfg }, defaultTsCfg)

/-- Oracle for the Tailscale variant start command; tailscaleRunning is the
running field of the parsed tailscale status query. -/
structure TsStartEnv where
  tailscaleRunning : Bool
  probe : Nat → Bool
  nowTs : String
  peerId : Option String

inductive TsStartOutcome
  | tailscaleBlocked
  | alreadyRunning
  | timeoutFatal
  | startedPersisted
  | startedInfoOnly
deriving DecidableEq

structure TsStartResult where
  state : TsSt
  cmds : List Cmd
  outcome : TsStartOutcome
deriving DecidableEq

/-- Process exit status per outcome in the Tailscale variant start command:
only the polling timeout calls process.exit(1); the blocked Tailscale branch
is a plain return from the action, so the process exits with status zero. -/
def tsExitCode : TsStartOutcome → Nat
  | TsStartOutcome.timeoutFatal => 1
  | _ => 0

def tsStatusCmd : Cmd := Cmd.execSilent "tailscale" ["status", "--json"]

def tsKillCmds (s : TsSt) : List Cmd :=
  if s.daemonRunning then [shutdownCmd] else [shutdownCmd, pkillCmd]

/-- The start action of src/unnamed/part_001, lines 616 to 705: the Tailscale
connection is re-checked first; a failed check prints instructions and
returns without touching the daemon. -/
def tsStartRun (env : TsStartEnv) (s0 : TsSt) : TsStartResult :=
  let l := loadCfgTs s0
  let s1 := l.1
  let cfg := l.2
  let pre := if cfg.networkType = NetworkType.tailscale then [tsStatusCmd] else []
  if cfg.networkType = NetworkType.tailscale ∧ env.tailscaleRunning = false then
    { state := s1, cmds := pre, outcome := TsStartOutcome.tailscaleBlocked }
  else if s1.daemonRunning then
    { state := s1, cmds := pre ++ [peersProbeCmd], outcome := TsStartOutcome.alreadyRunning }
  else
    let w := waitForDaemon env.probe 20000
    let cmds0 := pre ++ [peersProbeCmd] ++ tsKillCmds s1 ++ [spawnDaemonCmd]
      ++ List.replicate w.2 peersProbeCmd
    if w.1 then
      let cfg1 := { cfg with lastStarted := some env.nowTs }
      match env.peerId with
      | some pid =>
        let cfg2 := { cfg1 with nodeId := some pid }
        { state := { s1 with daemonRunning := true, config := some cfg2 },
          cmds := cmds0 ++ [peerIdProbeCmd], outcome := TsStartOutcome.startedPersisted }
      | none =>
        { state := { s1 with daemonRunning := true }, cmds := cmds0 ++ [peerIdProbeCmd],
          outcome := TsStartOutcome.startedInfoOnly }
    else { state := s1, cmds := cmds0, outcome := TsStartOutcome.timeoutFatal }

/- ----- concrete example values used by witnesses and counterexamples ----- -/

/-- Fresh machine: nothing installed, nothing configured. -/
def st0 : St :=
  { configDirExists := false, config := none, files := [], ipfsInitialized := false,
    daemonRunning := false, toolsInstalled := false, kuboInstalled := false }

def envAllOk : Env :=
  { aptOk := true, kuboOk := true, ipfsInitOk := true, configOk := true, freshKey := "ab12" }

def ansBootstrap : Answers :=
  { nodeType := NodeType.bootstrap, basePort := 4001, swarmKeyPath := none,
    bootstrapMultiaddr := none }

def ansRegularNoKey : Answers :=
  { nodeType := NodeType.regular, basePort := 4001, swarmKeyPath := none,
    bootstrapMultiaddr := some "/ip4/10.0.0.1/tcp/4001/p2p/ABC123" }

def userKeyPath : String := "/home/u/swarm.key"

def userKeyContent : String := keyFileContent "cdef"

/-- Machine that already holds a caller supplied key file. -/
def stWithUserKey : St := { st0 with files := [(userKeyPath, userKeyContent)] }

/-- Machine whose canonical swarm key file already exists. -/
def stWithCanonicalKey : St :=
  { st0 with files := [(SWARM_KEY_PATH, keyFileContent "99aa")] }

def ansRegularBadAddr : Answers :=
  { nodeType := NodeType.regular, basePort := 4001, swarmKeyPath := some userKeyPath,
    bootstrapMultiaddr := some "/ip4/10.0.0.1/tcp/4001" }

def cfgRegularNoAddr : Cfg := { defaultCfg with nodeType := NodeType.regular }

def cfgStarted : Cfg :=
  { defaultCfg with nodeType := NodeType.bootstrap, swarmKey := some SWARM_KEY_PATH }

/-- Initialized, stopped node state used by the start command examples. -/
def stInitialized : St :=
  { configDirExists := true, config := some cfgStarted,
    files := [(SWARM_KEY_PATH, keyFileContent "99aa"), (IPFS_SWARM_KEY_PATH, keyFileContent "99aa")],
    ipfsInitialized := true, daemonRunning := false, toolsInstalled := true,
    kuboInstalled := true }

def stRunning : St := { stInitialized with daemonRunning := true }

def envStartNoId : StartEnv :=
  { probe := fun _ => true, nowTs := "2026-10-12T00:00:00.000Z", peerId := none }

def envStartWithId : StartEnv :=
  { probe := fun _ => true, nowTs := "2026-10-12T00:00:00.000Z", peerId := some "QmPeer" }

def envStartNever : StartEnv :=
  { probe := fun _ => false, nowTs := "2026-10-12T00:00:00.000Z", peerId := none }

def tsCfgTailscale : TsCfg :=
  { defaultTsCfg with networkType := NetworkType.tailscale, swarmKey := some SWARM_KEY_PATH }

def tsStWithCfg : TsSt :=
  { configDirExists := true, config := some tsCfgTailscale, files := [],
    ipfsInitialized := true, daemonRunning := false }

def tsEnvDown : TsStartEnv :=
  { tailscaleRunning := false, probe := fun _ => true,
    nowTs := "2026-10-12T00:00:00.000Z", peerId := some "QmPeer" }

/- ===================== helper lemmas ===================== -/

theorem getFile_setFile_self (p v : String) (l : List (String × String)) :
    getFile p (setFile p v l) = some v := by
  induction l with
  | nil => simp [setFile, getFile]
  | cons hd tl ih =>
    obtain ⟨q, w⟩ := hd
    by_cases hq : q = p
    · simp [setFile, getFile, hq]
    · simp [setFile, getFile, hq, ih]

theorem getFile_setFile_ne (p q v : String) (l : List (String × String)) (h : q ≠ p) :
    getFile q (setFile p v l) = getFile q l := by
  induction l with
  | nil => simp [setFile, getFile, Ne.symm h]
  | cons hd tl ih =>
    obtain ⟨r, w⟩ := hd
    by_cases hr : r = p
    · subst hr
      simp [setFile, getFile, Ne.symm h]
    · by_cases hrq : r = q
      · subst hrq
        simp [setFile, getFile, hr]
      · simp [setFile, getFile, hr, hrq, ih]

theorem setFile_self (p v : String) (l : List (String × String))
    (h : getFile p l = some v) : setFile p v l = l := by
  induction l with
  | nil => simp [getFile] at h
  | cons hd tl ih =>
    obtain ⟨q, w⟩ := hd
    by_cases hq : q = p
    · subst hq
      simp [getFile] at h
      simp [setFile, h]
    · simp [getFile, hq] at h
      simp [setFile, hq, ih h]

theorem truthy_some (o : Option String) (h : truthy o = true) :
    o = some (o.getD "") ∧ o.getD "" ≠ "" := by
  cases o with
  | none => simp [truthy] at h
  | some s =>
    constructor
    · simp
    · intro hs
      simp only [Option.getD_some] at hs
      rw [hs] at h
      simp [truthy] at h

/-- Structure eta helper: rewriting a field to the value it already has. -/
theorem St_set_config (s : St) (c : Option Cfg) (h : s.config = c) :
    { s with config := c } = s := by
  subst h; rfl

theorem St_set_dir (s : St) (b : Bool) (h : s.configDirExists = b) :
    { s with configDirExists := b } = s := by
  subst h; rfl

theorem St_set_daemon (s : St) (b : Bool) (h : s.daemonRunning = b) :
    { s with daemonRunning := b } = s := by
  subst h; rfl

theorem St_set_files (s : St) (l : List (String × String)) (h : s.files = l) :
    { s with files := l } = s := by
  subst h; rfl

theorem Cfg_set_swarmKey (c : Cfg) (v : Option String) (h : c.swarmKey = v) :
    { c with swarmKey := v } = c := by
  subst h; rfl

theorem loadCfg_some (s : St) (c : Cfg) (h : s.config = some c) :
    loadCfg s = ({ s with configDirExists := true }, c) := by
  simp [loadCfg, h]

theorem loadCfg_none (s : St) (h : s.config = none) :
    loadCfg s = ({ s with configDirExists := true, config := some defaultCfg }, defaultCfg) := by
  simp [loadCfg, h]

theorem loadCfg_files (s : St) : (loadCfg s).1.files = s.files := by
  unfold loadCfg
  cases h : s.config <;> simp

theorem loadCfg_flags (s : St) :
    (loadCfg s).1.toolsInstalled = s.toolsInstalled ∧
    (loadCfg s).1.kuboInstalled = s.kuboInstalled ∧
    (loadCfg s).1.ipfsInitialized = s.ipfsInitialized ∧
    (loadCfg s).1.daemonRunning = s.daemonRunning ∧
    (loadCfg s).1.configDirExists = true := by
  unfold loadCfg
  cases h : s.config <;> simp

theorem loadCfg_config_some (s : St) (c : Cfg) (h : s.config = some c) :
    (loadCfg s).1.config = some c ∧ (loadCfg s).2 = c := by
  simp [loadCfg, h]

/- ===================== claim C2 ===================== -/

/-- C2: if the swarm key file already exists at the canonical path, generate
returns that path without modifying anything; hence a second generate call
right after a first one changes nothing, and in particular never changes the
bytes of the key file: the content is immutable once created. -/
theorem C2_swarm_key_immutable :
    (∀ (s : St) (k : String), (getFile SWARM_KEY_PATH s.files).isSome = true →
        generateSwarmKey k s = (s, SWARM_KEY_PATH)) ∧
    (∀ (s : St) (k1 k2 : String),
        generateSwarmKey k2 (generateSwarmKey k1 s).1 = ((generateSwarmKey k1 s).1, SWARM_KEY_PATH)) := by
  constructor
  · intro s k h
    obtain ⟨v, hv⟩ := Option.isSome_iff_exists.mp h
    simp [generateSwarmKey, hv]
  · intro s k1 k2
    unfold generateSwarmKey
    cases h : getFile SWARM_KEY_PATH s.files with
    | some v => simp [h]
    | none => simp [h, getFile_setFile_self]

/-- C2 witness: concrete instances of both conjuncts. -/
theorem C2_witness :
    generateSwarmKey "bb" stWithCanonicalKey = (stWithCanonicalKey, SWARM_KEY_PATH) ∧
    generateSwarmKey "cc" (generateSwarmKey "bb" st0).1 = ((generateSwarmKey "bb" st0).1, SWARM_KEY_PATH) :=
  ⟨C2_swarm_key_immutable.1 stWithCanonicalKey "bb" (by decide),
    C2_swarm_key_immutable.2 st0 "bb" "cc"⟩

/- ===================== claim C3 ===================== -/

/-- C3 counterexample: a record with the Regular role but a null bootstrap
multiaddr (the guard in configureIpfs also tests truthiness of the address)
receives no bootstrap add command, so the claimed equivalence, exactly one
bootstrap add if and only if the role is Regular, is false at this input. -/
theorem C3_counterexample :
    cfgRegularNoAddr.nodeType = NodeType.regular ∧
    (configureIpfsCmds cfgRegularNoAddr).filter isBootstrapAdd = [] := by
  constructor
  · rfl
  · rfl

/-- C3 (amended): for every record the Node Configurator plan carries the API
address on basePort + 1000 and the gateway address on basePort + 4080, always
issues the command clearing all pre seeded bootstrap peers, and contains
exactly one bootstrap add command, carrying exactly bootstrapMultiaddr, when
the role is Regular and bootstrapMultiaddr is present and non empty, and no
bootstrap add command otherwise; in particular never for a Bootstrap node. -/
theorem C3_node_configurator (cfg : Cfg) :
    apiAddrCmd cfg.basePort ∈ configureIpfsCmds cfg ∧
    gatewayAddrCmd cfg.basePort ∈ configureIpfsCmds cfg ∧
    bootstrapRmAllCmd ∈ configureIpfsCmds cfg ∧
    (configureIpfsCmds cfg).filter isBootstrapAdd =
      (if cfg.nodeType = NodeType.regular ∧ truthy cfg.bootstrapMultiaddr = true then
        [bootstrapAddCmd (cfg.bootstrapMultiaddr.getD "")]
      else []) ∧
    apiAddrStr cfg.basePort = "/ip4/127.0.0.1/tcp/" ++ toString (cfg.basePort + 1000) ∧
    gatewayAddrStr cfg.basePort = "/ip4/127.0.0.1/tcp/" ++ toString (cfg.basePort + 4080) := by
  refine ⟨?_, ?_, ?_, ?_, rfl, rfl⟩
  · simp [configureIpfsCmds]
  · simp [configureIpfsCmds]
  · simp [configureIpfsCmds]
  · by_cases h : cfg.nodeType = NodeType.regular ∧ truthy cfg.bootstrapMultiaddr = true
    · simp only [configureIpfsCmds, h, if_pos]
      simp [List.filter, mdnsCmd, routingCmd, autoTlsCmd, connMgrCmd, swarmAddrsCmd,
        apiAddrCmd, gatewayAddrCmd, bootstrapRmAllCmd, bootstrapAddCmd, isBootstrapAdd]
    · simp only [configureIpfsCmds, h, if_neg, not_false_eq_true]
      simp [List.filter, mdnsCmd, routingCmd, autoTlsCmd, connMgrCmd, swarmAddrsCmd,
        apiAddrCmd, gatewayAddrCmd, bootstrapRmAllCmd, isBootstrapAdd]

/- ===================== claim C10 ===================== -/

/-- C10: a declined confirmation makes clean change nothing at all: the state
is returned untouched (daemon not stopped, no file or directory deleted or
modified) and no external command is issued. -/
theorem C10_clean_declined_noop (s : St) :
    cleanRun false s = { state := s, cmds := [], ok := true } := rfl

/- ===================== claim C6 ===================== -/

/-- C6: when the daemon probe already succeeds, start returns success as a no
op: the only external command issued is the reachability probe itself, so no
shutdown, no pkill and no daemon spawn happen, the daemon stays running, and
no file changes. -/
theorem C6_start_noop_when_running (env : StartEnv) (s : St) (h : s.daemonRunning = true) :
    (startRun env s).outcome = StartOutcome.alreadyRunning ∧
    startExitCode (startRun env s).outcome = 0 ∧
    (startRun env s).cmds = [peersProbeCmd] ∧
    spawnDaemonCmd ∉ (startRun env s).cmds ∧
    shutdownCmd ∉ (startRun env s).cmds ∧
    pkillCmd ∉ (startRun env s).cmds ∧
    (startRun env s).state.daemonRunning = true ∧
    (startRun env s).state.files = s.files := by
  have hd : (loadCfg s).1.daemonRunning = true := by
    rw [(loadCfg_flags s).2.2.2.1]; exact h
  have hst : startRun env s =
      { state := (loadCfg s).1, cmds := [peersProbeCmd],
        outcome := StartOutcome.alreadyRunning, polls := 0 } := by
    unfold startRun
    simp [hd]
  rw [hst]
  refine ⟨rfl, rfl, rfl, ?_, ?_, ?_, hd, loadCfg_files s⟩
  · show spawnDaemonCmd ∉ [peersProbeCmd]
    decide
  · show shutdownCmd ∉ [peersProbeCmd]
    decide
  · show pkillCmd ∉ [peersProbeCmd]
    decide

/-- C6 witness: a concrete running node. -/
theorem C6_witness :
    (startRun envStartWithId stRunning).outcome = StartOutcome.alreadyRunning ∧
    startExitCode (startRun envStartWithId stRunning).outcome = 0 ∧
    (startRun envStartWithId stRunning).cmds = [peersProbeCmd] ∧
    spawnDaemonCmd ∉ (startRun envStartWithId stRunning).cmds ∧
    shutdownCmd ∉ (startRun envStartWithId stRunning).cmds ∧
    pkillCmd ∉ (startRun envStartWithId stRunning).cmds ∧
    (startRun envStartWithId stRunning).state.daemonRunning = true ∧
    (startRun envStartWithId stRunning).state.files = stRunning.files :=
  C6_start_noop_when_running envStartWithId stRunning (by decide)

/- ===================== claim C7 ===================== -/

theorem waitForDaemonAux_all_false (probe : Nat → Bool) (hp : ∀ i, probe i = false) :
    ∀ (fuel i : Nat), waitForDaemonAux probe i fuel = (false, fuel) := by
  intro fuel
  induction fuel with
  | zero => intro i; rfl
  | succ f ih =>
    intro i
    simp [waitForDaemonAux, hp i, ih (i + 1)]

theorem waitForDaemonAux_le (probe : Nat → Bool) :
    ∀ (fuel i : Nat), (waitForDaemonAux probe i fuel).2 ≤ fuel := by
  intro fuel
  induction fuel with
  | zero => intro i; simp [waitForDaemonAux]
  | succ f ih =>
    intro i
    by_cases hp : probe i = true
    · simp [waitForDaemonAux, hp]
    · simp only [waitForDaemonAux, hp, if_false, Bool.false_eq_true]
      have := ih (i + 1)
      omega

/-- C7: a start whose daemon never becomes reachable polls once per second up
to the 20000 millisecond ceiling (exactly 20000 / 1000 = 20 probe rounds, and
never more than 20), then fails fatally with exit status 1, classified as the
timeout failure, which is a different failure kind from a generic tool
failure. -/
theorem C7_start_timeout (env : StartEnv) (s : St)
    (h1 : s.daemonRunning = false) (h2 : ∀ i, env.probe i = false) :
    (startRun env s).outcome = StartOutcome.timeoutFatal ∧
    startExitCode (startRun env s).outcome = 1 ∧
    startFailure (startRun env s).outcome = some FailureKind.timeoutKind ∧
    FailureKind.timeoutKind ≠ FailureKind.toolFailureKind ∧
    (startRun env s).polls = 20000 / 1000 ∧
    (∀ (env2 : StartEnv) (s2 : St), (startRun env2 s2).polls ≤ 20) ∧
    spawnDaemonCmd ∈ (startRun env s).cmds := by
  have hd : (loadCfg s).1.daemonRunning = false := by
    rw [(loadCfg_flags s).2.2.2.1]; exact h1
  have hdiv : (20000 : Nat) / 1000 = 20 := by norm_num
  have hw : waitForDaemon env.probe 20000 = (false, 20) := by
    unfold waitForDaemon
    rw [hdiv]
    exact waitForDaemonAux_all_false env.probe h2 20 0
  have hbound : ∀ (env2 : StartEnv) (s2 : St), (startRun env2 s2).polls ≤ 20 := by
    intro env2 s2
    have haux := waitForDaemonAux_le env2.probe ((20000 : Nat) / 1000) 0
    rw [hdiv] at haux
    unfold startRun
    cases hp : (loadCfg s2).1.daemonRunning with
    | true => simp [hp]
    | false =>
      simp only [hp, Bool.false_eq_true, if_false]
      cases hw2 : (waitForDaemon env2.probe 20000).1 with
      | true =>
        cases hpid : env2.peerId with
        | some pid =>
          simp only [waitForDaemon] at haux ⊢
          simp [hw2, hpid, haux]
        | none =>
          simp only [waitForDaemon] at haux ⊢
          simp [hw2, hpid, haux]
      | false =>
        simp only [waitForDaemon] at haux ⊢
        simp [hw2, haux]
  have houtcome : (startRun env s).outcome = StartOutcome.timeoutFatal := by
    unfold startRun
    simp [hd, hw]
  refine ⟨houtcome, ?_, ?_, by decide, ?_, hbound, ?_⟩
  · rw [houtcome]
    rfl
  · rw [houtcome]
    rfl
  · unfold startRun
    simp [hd, hw, hdiv]
  · unfold startRun
    simp [hd, hw]

/-- C7 witness: concrete start whose probe never succeeds. -/
theorem C7_witness :
    (startRun envStartNever stInitialized).outcome = StartOutcome.timeoutFatal ∧
    startExitCode (startRun envStartNever stInitialized).outcome = 1 ∧
    startFailure (startRun envStartNever stInitialized).outcome = some FailureKind.timeoutKind ∧
    FailureKind.timeoutKind ≠ FailureKind.toolFailureKind ∧
    (startRun envStartNever stInitialized).polls = 20000 / 1000 ∧
    (∀ (env2 : StartEnv) (s2 : St), (startRun env2 s2).polls ≤ 20) ∧
    spawnDaemonCmd ∈ (startRun envStartNever stInitialized).cmds :=
  C7_start_timeout envStartNever stInitialized (by decide) (fun _ => rfl)

/- ===================== claim C9 ===================== -/

/-- C9 counterexample: a start that is confirmed successful (daemon running,
informational outcome, exit status 0) after which the persisted record still
carries its old lastStarted and nodeId values, because saveCfg only runs when
the identity query succeeds: the record does not gain the new start timestamp
on every successful start. -/
theorem C9_counterexample :
    (startRun envStartNoId stInitialized).outcome = StartOutcome.startedInfoOnly ∧
    startExitCode (startRun envStartNoId stInitialized).outcome = 0 ∧
    (startRun envStartNoId stInitialized).state.daemonRunning = true ∧
    (startRun envStartNoId stInitialized).state.config = some cfgStarted ∧
    cfgStarted.lastStarted = none ∧ cfgStarted.nodeId = none ∧
    envStartNoId.nowTs = "2026-10-12T00:00:00.000Z" := by decide

/-- C9 (amended): on a confirmed start, when the identity query succeeds the
persisted record gains the queried nodeId and the new start timestamp; when
the identity query fails the start is still successful and not fatal (the
failure is informational only), but the record is not persisted at all, so
lastStarted and nodeId keep their prior persisted values. -/
theorem C9_start_persistence (env : StartEnv) (s : St)
    (h1 : s.daemonRunning = false)
    (h2 : (waitForDaemon env.probe 20000).1 = true) :
    (∀ pid, env.peerId = some pid →
        (startRun env s).outcome = StartOutcome.startedPersisted ∧
        (startRun env s).state.daemonRunning = true ∧
        (startRun env s).state.config =
          some { (loadCfg s).2 with lastStarted := some env.nowTs, nodeId := some pid }) ∧
    (env.peerId = none →
        (startRun env s).outcome = StartOutcome.startedInfoOnly ∧
        startExitCode (startRun env s).outcome = 0 ∧
        (startRun env s).state.daemonRunning = true ∧
        (startRun env s).state.config = (loadCfg s).1.config ∧
        (startRun env s).state.files = s.files) := by
  have hd : (loadCfg s).1.daemonRunning = false := by
    rw [(loadCfg_flags s).2.2.2.1]; exact h1
  have hkd : killDaemonRun (loadCfg s).1 =
      { st := (loadCfg s).1, cmds := [shutdownCmd, pkillCmd], ok := true } := by
    unfold killDaemonRun
    simp [hd]
  constructor
  · intro pid hpid
    unfold startRun
    simp [hd, hkd, h2, hpid]
  · intro hpid
    unfold startRun
    simp [hd, hkd, h2, hpid, loadCfg_files s, startExitCode]

/-- C9 witness: concrete successful start with a succeeding identity query. -/
theorem C9_witness :
    (∀ pid, envStartWithId.peerId = some pid →
        (startRun envStartWithId stInitialized).outcome = StartOutcome.startedPersisted ∧
        (startRun envStartWithId stInitialized).state.daemonRunning = true ∧
        (startRun envStartWithId stInitialized).state.config =
          some { (loadCfg stInitialized).2 with lastStarted := some envStartWithId.nowTs, nodeId := some pid }) ∧
    (envStartWithId.peerId = none →
        (startRun envStartWithId stInitialized).outcome = StartOutcome.startedInfoOnly ∧
        startExitCode (startRun envStartWithId stInitialized).outcome = 0 ∧
        (startRun envStartWithId stInitialized).state.daemonRunning = true ∧
        (startRun envStartWithId stInitialized).state.config = (loadCfg stInitialized).1.config ∧
        (startRun envStartWithId stInitialized).state.files = stInitialized.files) :=
  C9_start_persistence envStartWithId stInitialized (by decide) (by decide)

/- ===================== claim C8 ===================== -/

/-- C8 counterexample: in the Tailscale variant, a start on a MeshOverlay
configured node whose overlay check fails is blocked (no daemon spawn, the
instruction is printed and the action returns), but the process exits with
status 0, not non zero as the claim states. -/
theorem C8_counterexample :
    (tsStartRun tsEnvDown tsStWithCfg).outcome = TsStartOutcome.tailscaleBlocked ∧
    spawnDaemonCmd ∉ (tsStartRun tsEnvDown tsStWithCfg).cmds ∧
    tsExitCode (tsStartRun tsEnvDown tsStWithCfg).outcome = 0 := by decide

/-- C8 (amended): with networkMode MeshOverlay the overlay connection is re
verified before any daemon start attempt; a failed verification blocks the
start: the only external command issued is the overlay status query, no
daemon is spawned, the state is untouched apart from the side effecting
configuration load, an instruction is printed and the action returns, the
process exiting with status 0 (not non zero). -/
theorem C8_tailscale_blocks_start (env : TsStartEnv) (s0 : TsSt)
    (hts : (loadCfgTs s0).2.networkType = NetworkType.tailscale)
    (hdown : env.tailscaleRunning = false) :
    (tsStartRun env s0).outcome = TsStartOutcome.tailscaleBlocked ∧
    (tsStartRun env s0).cmds = [tsStatusCmd] ∧
    spawnDaemonCmd ∉ (tsStartRun env s0).cmds ∧
    shutdownCmd ∉ (tsStartRun env s0).cmds ∧
    (tsStartRun env s0).state = (loadCfgTs s0).1 ∧
    tsExitCode (tsStartRun env s0).outcome = 0 := by
  have houtcome : (tsStartRun env s0).outcome = TsStartOutcome.tailscaleBlocked := by
    unfold tsStartRun
    simp [hts, hdown]
  have hcmds : (tsStartRun env s0).cmds = [tsStatusCmd] := by
    unfold tsStartRun
    simp [hts, hdown]
  have hstate : (tsStartRun env s0).state = (loadCfgTs s0).1 := by
    unfold tsStartRun
    simp [hts, hdown]
  refine ⟨houtcome, hcmds, ?_, ?_, hstate, by rw [houtcome]; rfl⟩
  · rw [hcmds]
    decide
  · rw [hcmds]
    decide

/-- C8 witness: concrete blocked Tailscale start. -/
theorem C8_witness :
    (tsStartRun tsEnvDown tsStWithCfg).outcome = TsStartOutcome.tailscaleBlocked ∧
    (tsStartRun tsEnvDown tsStWithCfg).cmds = [tsStatusCmd] ∧
    spawnDaemonCmd ∉ (tsStartRun tsEnvDown tsStWithCfg).cmds ∧
    shutdownCmd ∉ (tsStartRun tsEnvDown tsStWithCfg).cmds ∧
    (tsStartRun tsEnvDown tsStWithCfg).state = (loadCfgTs tsStWithCfg).1 ∧
    tsExitCode (tsStartRun tsEnvDown tsStWithCfg).outcome = 0 :=
  C8_tailscale_blocks_start tsEnvDown tsStWithCfg (by decide) rfl

/- ===================== claim C4 ===================== -/

/-- C4 counterexample: on a fresh machine, init with the regular role and a
missing swarm key path does fail validation before any external command, but
it is not free of side effects: the side effecting configuration load has
already created the config directory and persisted the default record before
validation runs. -/
theorem C4_counterexample :
    (initRun ansRegularNoKey envAllOk st0).ok = false ∧
    (initRun ansRegularNoKey envAllOk st0).cmds = [] ∧
    st0.config = none ∧
    (initRun ansRegularNoKey envAllOk st0).state.config = some defaultCfg := by decide

/-- C4 (amended): init with the regular role and a swarm key path that is
absent, empty, or names a non existent file terminates fatally with no
external command issued and no step mutation: no file content changes, the
node data directory and daemon are untouched, and an existing configuration
record is preserved; the only possible side effect is the configuration load
itself creating the config directory and the default record when absent. -/
theorem C4_validation_no_commands (ans : Answers) (env : Env) (s0 : St)
    (hreg : ans.nodeType = NodeType.regular)
    (hkey : truthy ans.swarmKeyPath = false ∨
      getFile (ans.swarmKeyPath.getD "") s0.files = none) :
    initRun ans env s0 = { state := (loadCfg s0).1, cmds := [], ok := false } ∧
    (loadCfg s0).1.files = s0.files ∧
    (loadCfg s0).1.ipfsInitialized = s0.ipfsInitialized ∧
    (loadCfg s0).1.daemonRunning = s0.daemonRunning ∧
    (∀ c, s0.config = some c → (loadCfg s0).1.config = some c) ∧
    (s0.config = none → (loadCfg s0).1.config = some defaultCfg) := by
  have hcfg : (applyAnswers (loadCfg s0).2 ans).nodeType = NodeType.regular := hreg
  have hpath : (applyAnswers (loadCfg s0).2 ans).swarmKeyPath = ans.swarmKeyPath := rfl
  have hval : validationFailed (loadCfg s0).1 (applyAnswers (loadCfg s0).2 ans) = true := by
    simp only [validationFailed, hcfg, hpath, decide_True, Bool.true_and]
    cases hkey with
    | inl h => simp [h]
    | inr h => simp [fileExists, loadCfg_files, h]
  refine ⟨?_, loadCfg_files s0, (loadCfg_flags s0).2.2.1, (loadCfg_flags s0).2.2.2.1, ?_, ?_⟩
  · unfold initRun
    simp [hval]
  · intro c hc
    exact (loadCfg_config_some s0 c hc).1
  · intro hc
    simp [loadCfg, hc]

/-- C4 witness: concrete invocation with an existing configuration record so
that nothing at all changes. -/
theorem C4_witness :
    initRun ansRegularNoKey envAllOk stInitialized
        = { state := (loadCfg stInitialized).1, cmds := [], ok := false } ∧
    (loadCfg stInitialized).1.files = stInitialized.files ∧
    (loadCfg stInitialized).1.ipfsInitialized = stInitialized.ipfsInitialized ∧
    (loadCfg stInitialized).1.daemonRunning = stInitialized.daemonRunning ∧
    (∀ c, stInitialized.config = some c → (loadCfg stInitialized).1.config = some c) ∧
    (stInitialized.config = none → (loadCfg stInitialized).1.config = some defaultCfg) :=
  C4_validation_no_commands ansRegularNoKey envAllOk stInitialized (by decide)
    (Or.inl (by decide))

/- ===================== claim C5 ===================== -/

/-- C5 counterexample: a command line init with the regular role, a valid
swarm key file and a bootstrap address lacking any p2p peer identity segment
does not fail validation: the run proceeds through every step, succeeds, and
even issues the bootstrap add command with the malformed address. -/
theorem C5_counterexample :
    hasP2pSegment "/ip4/10.0.0.1/tcp/4001" = false ∧
    (initRun ansRegularBadAddr envAllOk stWithUserKey).ok = true ∧
    bootstrapAddCmd "/ip4/10.0.0.1/tcp/4001"
      ∈ (initRun ansRegularBadAddr envAllOk stWithUserKey).cmds := by decide

/-- C5 (amended): only the interactive prompt validator rejects a bootstrap
address lacking a p2p peer identity segment; in command line mode the
validation checks only presence, so init with the regular role, a valid key
and any non empty bootstrap address passes validation and proceeds to the
step plan. -/
theorem C5_p2p_validation_interactive_only :
    (∀ addr : String, hasP2pSegment addr = false → bootstrapAddrValidate addr = false) ∧
    (∀ (ans : Answers) (env : Env) (s0 : St),
      ans.nodeType = NodeType.regular →
      truthy ans.swarmKeyPath = true →
      fileExists (loadCfg s0).1 (ans.swarmKeyPath.getD "") = true →
      truthy ans.bootstrapMultiaddr = true →
      initRun ans env s0 = initSteps env (applyAnswers (loadCfg s0).2 ans) (loadCfg s0).1) := by
  constructor
  · intro addr h
    simp [bootstrapAddrValidate, h]
  · intro ans env s0 hreg hk hf hb
    have hval : validationFailed (loadCfg s0).1 (applyAnswers (loadCfg s0).2 ans) = false := by
      have hcfg : (applyAnswers (loadCfg s0).2 ans).nodeType = NodeType.regular := hreg
      simp [validationFailed, hcfg, applyAnswers, hk, hf, hb]
    unfold initRun
    simp [hval]

/- ===================== claim C1 helper lemmas ===================== -/

theorem installToolsRun_ok (env : Env) (s : St) (h : (installToolsRun env s).ok = true) :
    (installToolsRun env s).st.toolsInstalled = true ∧
    (installToolsRun env s).st.kuboInstalled = s.kuboInstalled ∧
    (installToolsRun env s).st.ipfsInitialized = s.ipfsInitialized ∧
    (installToolsRun env s).st.configDirExists = s.configDirExists ∧
    (installToolsRun env s).st.config = s.config ∧
    (installToolsRun env s).st.files = s.files ∧
    (installToolsRun env s).st.daemonRunning = s.daemonRunning := by
  unfold installToolsRun at h ⊢
  split_ifs at h ⊢ <;> simp_all

theorem installKuboRun_ok (env : Env) (s : St) (h : (installKuboRun env s).ok = true) :
    (installKuboRun env s).st.kuboInstalled = true ∧
    (installKuboRun env s).st.toolsInstalled = s.toolsInstalled ∧
    (installKuboRun env s).st.ipfsInitialized = s.ipfsInitialized ∧
    (installKuboRun env s).st.configDirExists = s.configDirExists ∧
    (installKuboRun env s).st.config = s.config ∧
    (installKuboRun env s).st.files = s.files ∧
    (installKuboRun env s).st.daemonRunning = s.daemonRunning := by
  unfold installKuboRun at h ⊢
  split_ifs at h ⊢ <;> simp_all

theorem initializeIpfsRun_ok (env : Env) (s : St) (h : (initializeIpfsRun env s).ok = true) :
    (initializeIpfsRun env s).st.ipfsInitialized = true ∧
    (initializeIpfsRun env s).st.toolsInstalled = s.toolsInstalled ∧
    (initializeIpfsRun env s).st.kuboInstalled = s.kuboInstalled ∧
    (initializeIpfsRun env s).st.configDirExists = s.configDirExists ∧
    (initializeIpfsRun env s).st.config = s.config ∧
    (initializeIpfsRun env s).st.files = s.files ∧
    (initializeIpfsRun env s).st.daemonRunning = s.daemonRunning := by
  unfold initializeIpfsRun at h ⊢
  split_ifs at h ⊢ <;> simp_all

theorem killDaemonRun_st (s : St) :
    (killDaemonRun s).st = { s with daemonRunning := false } ∧ (killDaemonRun s).ok = true := by
  unfold killDaemonRun
  split_ifs with hd
  · exact ⟨rfl, rfl⟩
  · refine ⟨?_, rfl⟩
    simp only [Bool.not_eq_true] at hd
    exact (St_set_daemon s false hd).symm

theorem installToolsRun_noop (env : Env) (s : St) (h : s.toolsInstalled = true) :
    installToolsRun env s = { st := s, cmds := [], ok := true } := by
  simp [installToolsRun, h]

theorem installKuboRun_noop (env : Env) (s : St) (h : s.kuboInstalled = true) :
    installKuboRun env s = { st := s, cmds := [kuboProbeCmd], ok := true } := by
  simp [installKuboRun, h]

theorem initializeIpfsRun_noop (env : Env) (s : St) (h : s.ipfsInitialized = true) :
    initializeIpfsRun env s = { st := s, cmds := [], ok := true } := by
  simp [initializeIpfsRun, h]

theorem validationFailed_false_regular (s : St) (cfg : Cfg)
    (h : validationFailed s cfg = false) (hr : cfg.nodeType = NodeType.regular) :
    truthy cfg.swarmKeyPath = true ∧ fileExists s (cfg.swarmKeyPath.getD "") = true ∧
    truthy cfg.bootstrapMultiaddr = true := by
  simp [validationFailed, hr] at h
  exact ⟨h.1.1, h.1.2, h.2⟩

theorem initFinalCfg_fields (ans : Answers) (base : Cfg) :
    (initFinalCfg ans base).nodeType = ans.nodeType ∧
    (initFinalCfg ans base).basePort = ans.basePort ∧
    (initFinalCfg ans base).swarmKeyPath = ans.swarmKeyPath ∧
    (initFinalCfg ans base).bootstrapMultiaddr = ans.bootstrapMultiaddr := by
  cases h : ans.nodeType <;> simp [initFinalCfg, h, applyAnswers]

theorem initFinalCfg_swarmKey (ans : Answers) (base : Cfg)
    (hreg : ans.nodeType = NodeType.regular → truthy ans.swarmKeyPath = true) :
    (initFinalCfg ans base).swarmKey = some (keySourcePath ans) := by
  cases h : ans.nodeType with
  | bootstrap => simp [initFinalCfg, keySourcePath, h]
  | regular =>
    have hts := truthy_some ans.swarmKeyPath (hreg h)
    simp only [initFinalCfg, keySourcePath, h]
    exact hts.1

theorem keySourcePath_ne (ans : Answers)
    (hreg : ans.nodeType = NodeType.regular → truthy ans.swarmKeyPath = true) :
    keySourcePath ans ≠ "" := by
  cases h : ans.nodeType with
  | bootstrap =>
    simp only [keySourcePath, h]
    decide
  | regular =>
    have hts := truthy_some ans.swarmKeyPath (hreg h)
    simp only [keySourcePath, h]
    exact hts.2

theorem applyAnswers_id (c : Cfg) (a : Answers)
    (h1 : c.nodeType = a.nodeType) (h2 : c.basePort = a.basePort)
    (h3 : c.swarmKeyPath = a.swarmKeyPath) (h4 : c.bootstrapMultiaddr = a.bootstrapMultiaddr) :
    applyAnswers c a = c := by
  cases c
  simp_all [applyAnswers]

theorem swarmKeyStep_cfg (env : Env) (cfg : Cfg) (s : St) :
    (swarmKeyStep env cfg s).2 =
      (match cfg.nodeType with
        | NodeType.bootstrap => { cfg with swarmKey := some SWARM_KEY_PATH }
        | NodeType.regular => { cfg with swarmKey := cfg.swarmKeyPath }) := by
  unfold swarmKeyStep generateSwarmKey
  cases h : cfg.nodeType with
  | bootstrap => cases hg : getFile SWARM_KEY_PATH s.files <;> simp [h, hg]
  | regular => simp [h]

theorem swarmKeyStep_state (env : Env) (cfg : Cfg) (s : St) :
    (swarmKeyStep env cfg s).1.config = some (swarmKeyStep env cfg s).2 ∧
    (swarmKeyStep env cfg s).1.toolsInstalled = s.toolsInstalled ∧
    (swarmKeyStep env cfg s).1.kuboInstalled = s.kuboInstalled ∧
    (swarmKeyStep env cfg s).1.ipfsInitialized = s.ipfsInitialized ∧
    (swarmKeyStep env cfg s).1.configDirExists = s.configDirExists ∧
    (swarmKeyStep env cfg s).1.daemonRunning = s.daemonRunning := by
  unfold swarmKeyStep generateSwarmKey saveCfg
  cases h : cfg.nodeType with
  | bootstrap => cases hg : getFile SWARM_KEY_PATH s.files <;> simp [h, hg]
  | regular => simp [h]

theorem swarmKeyStep_files_bootstrap (env : Env) (cfg : Cfg) (s : St)
    (h : cfg.nodeType = NodeType.bootstrap) :
    ∃ K, getFile SWARM_KEY_PATH (swarmKeyStep env cfg s).1.files = some K := by
  unfold swarmKeyStep generateSwarmKey saveCfg
  cases hg : getFile SWARM_KEY_PATH s.files with
  | some v =>
    refine ⟨v, ?_⟩
    simp [h, hg]
  | none =>
    refine ⟨keyFileContent env.freshKey, ?_⟩
    simp [h, hg, getFile_setFile_self]

theorem swarmKeyStep_files_regular (env : Env) (cfg : Cfg) (s : St)
    (h : cfg.nodeType = NodeType.regular) :
    (swarmKeyStep env cfg s).1.files = s.files := by
  unfold swarmKeyStep saveCfg
  simp [h]

theorem configureIpfsRun_key (env : Env) (cfg : Cfg) (s : St) (p K : String)
    (hk : cfg.swarmKey = some p) (hp : p ≠ "") (hf : getFile p s.files = some K) :
    configureIpfsRun env cfg s =
      { st := { s with files := setFile IPFS_SWARM_KEY_PATH K s.files },
        cmds := configureIpfsCmds cfg, ok := env.configOk } := by
  unfold configureIpfsRun
  simp [hk, hp, hf]

/-- When the record already carries the key path its role dictates and the
canonical key file already exists, the swarm key step changes nothing. -/
theorem swarmKeyStep_fixed (env : Env) (cfg : Cfg) (s : St)
    (hcfg : s.config = some cfg)
    (hkey : cfg.nodeType = NodeType.bootstrap → (getFile SWARM_KEY_PATH s.files).isSome = true)
    (hswB : cfg.nodeType = NodeType.bootstrap → cfg.swarmKey = some SWARM_KEY_PATH)
    (hswR : cfg.nodeType = NodeType.regular → cfg.swarmKey = cfg.swarmKeyPath) :
    swarmKeyStep env cfg s = (s, cfg) := by
  obtain ⟨n, sw, bp, bm, ni, ls, skp⟩ := cfg
  cases n with
  | bootstrap =>
    obtain ⟨v, hv⟩ := Option.isSome_iff_exists.mp (hkey rfl)
    have hsw : sw = some SWARM_KEY_PATH := hswB rfl
    subst hsw
    unfold swarmKeyStep generateSwarmKey saveCfg
    simp only [hv]
    rw [Prod.mk.injEq]
    exact ⟨St_set_config s _ hcfg, rfl⟩
  | regular =>
    have hsw : sw = skp := hswR rfl
    subst hsw
    unfold swarmKeyStep saveCfg
    rw [Prod.mk.injEq]
    exact ⟨St_set_config s _ hcfg, rfl⟩

theorem initSteps_ok_state (env : Env) (cfg : Cfg) (s : St)
    (h1 : (installToolsRun env s).ok = true)
    (h2 : (installKuboRun env (installToolsRun env s).st).ok = true)
    (h4 : (initializeIpfsRun env
        (killDaemonRun (installKuboRun env (installToolsRun env s).st).st).st).ok = true) :
    (initSteps env cfg s).state =
      (configureIpfsRun env
        (swarmKeyStep env cfg (initializeIpfsRun env
          (killDaemonRun (installKuboRun env (installToolsRun env s).st).st).st).st).2
        (swarmKeyStep env cfg (initializeIpfsRun env
          (killDaemonRun (installKuboRun env (installToolsRun env s).st).st).st).st).1).st := by
  simp [initSteps, h1, h2, h4]

/-- What a successful init run guarantees about the resulting state: all
tools and the node binary present, the data directory initialized, the final
record persisted, and the swarm key source and its installed copy holding the
same bytes. -/
theorem initRun_ok_post (ans : Answers) (env : Env) (s0 : St)
    (h : (initRun ans env s0).ok = true) :
    ∃ K : String,
      (initRun ans env s0).state.toolsInstalled = true ∧
      (initRun ans env s0).state.kuboInstalled = true ∧
      (initRun ans env s0).state.ipfsInitialized = true ∧
      (initRun ans env s0).state.configDirExists = true ∧
      (initRun ans env s0).state.config = some (initFinalCfg ans (loadCfg s0).2) ∧
      getFile (keySourcePath ans) (initRun ans env s0).state.files = some K ∧
      getFile IPFS_SWARM_KEY_PATH (initRun ans env s0).state.files = some K ∧
      (ans.nodeType = NodeType.regular →
        truthy ans.swarmKeyPath = true ∧ truthy ans.bootstrapMultiaddr = true) := by
  have hvf : validationFailed (loadCfg s0).1 (applyAnswers (loadCfg s0).2 ans) = false := by
    cases hc : validationFailed (loadCfg s0).1 (applyAnswers (loadCfg s0).2 ans) with
    | false => rfl
    | true =>
      have h' := h
      simp only [initRun] at h'
      rw [hc] at h'
      simp at h'
  have hrun : initRun ans env s0
      = initSteps env (applyAnswers (loadCfg s0).2 ans) (loadCfg s0).1 := by
    simp only [initRun]
    rw [hvf]
    simp
  rw [hrun] at h ⊢
  have h1 : (installToolsRun env (loadCfg s0).1).ok = true := by
    cases hc : (installToolsRun env (loadCfg s0).1).ok with
    | true => rfl
    | false =>
      have h' := h
      simp [initSteps, hc] at h'
  have h2 : (installKuboRun env (installToolsRun env (loadCfg s0).1).st).ok = true := by
    cases hc : (installKuboRun env (installToolsRun env (loadCfg s0).1).st).ok with
    | true => rfl
    | false =>
      have h' := h
      simp [initSteps, h1, hc] at h'
  have h4 : (initializeIpfsRun env (killDaemonRun
      (installKuboRun env (installToolsRun env (loadCfg s0).1).st).st).st).ok = true := by
    cases hc : (initializeIpfsRun env (killDaemonRun
        (installKuboRun env (installToolsRun env (loadCfg s0).1).st).st).st).ok with
    | true => rfl
    | false =>
      have h' := h
      simp [initSteps, h1, h2, hc] at h'
  obtain ⟨a1, a2, a3, a4, a5, a6, a7⟩ := installToolsRun_ok env (loadCfg s0).1 h1
  obtain ⟨b1, b2, b3, b4, b5, b6, b7⟩ := installKuboRun_ok env _ h2
  obtain ⟨kd1, _⟩ := killDaemonRun_st (installKuboRun env (installToolsRun env (loadCfg s0).1).st).st
  obtain ⟨c1, c2, c3, c4, c5, c6, c7⟩ := initializeIpfsRun_ok env _ h4
  have f_tools : (initializeIpfsRun env (killDaemonRun
      (installKuboRun env (installToolsRun env (loadCfg s0).1).st).st).st).st.toolsInstalled = true := by
    rw [c2, kd1]
    exact b2.trans a1
  have f_kubo : (initializeIpfsRun env (killDaemonRun
      (installKuboRun env (installToolsRun env (loadCfg s0).1).st).st).st).st.kuboInstalled = true := by
    rw [c3, kd1]
    exact b1
  have f_dir : (initializeIpfsRun env (killDaemonRun
      (installKuboRun env (installToolsRun env (loadCfg s0).1).st).st).st).st.configDirExists = true := by
    rw [c4, kd1]
    exact (b4.trans a4).trans (loadCfg_flags s0).2.2.2.2
  have f_files : (initializeIpfsRun env (killDaemonRun
      (installKuboRun env (installToolsRun env (loadCfg s0).1).st).st).st).st.files = s0.files := by
    rw [c6, kd1]
    exact (b6.trans a6).trans (loadCfg_files s0)
  have hregs : ans.nodeType = NodeType.regular →
      truthy ans.swarmKeyPath = true ∧
      fileExists (loadCfg s0).1 (ans.swarmKeyPath.getD "") = true ∧
      truthy ans.bootstrapMultiaddr = true := by
    intro hr
    exact validationFailed_false_regular (loadCfg s0).1 (applyAnswers (loadCfg s0).2 ans) hvf hr
  -- the swarm key step
  have hcfg5 : (swarmKeyStep env (applyAnswers (loadCfg s0).2 ans) (initializeIpfsRun env
      (killDaemonRun (installKuboRun env (installToolsRun env (loadCfg s0).1).st).st).st).st).2
      = initFinalCfg ans (loadCfg s0).2 := by
    rw [swarmKeyStep_cfg]
    cases hnt : ans.nodeType <;> simp [initFinalCfg, hnt, applyAnswers]
  obtain ⟨d1, d2, d3, d4, d5, d6⟩ := swarmKeyStep_state env (applyAnswers (loadCfg s0).2 ans)
    (initializeIpfsRun env (killDaemonRun
      (installKuboRun env (installToolsRun env (loadCfg s0).1).st).st).st).st
  have hsrc5 : ∃ K, getFile (keySourcePath ans)
      (swarmKeyStep env (applyAnswers (loadCfg s0).2 ans) (initializeIpfsRun env
        (killDaemonRun (installKuboRun env (installToolsRun env (loadCfg s0).1).st).st).st).st).1.files
      = some K := by
    cases hnt : ans.nodeType with
    | bootstrap =>
      have hb := swarmKeyStep_files_bootstrap env (applyAnswers (loadCfg s0).2 ans)
        (initializeIpfsRun env (killDaemonRun
          (installKuboRun env (installToolsRun env (loadCfg s0).1).st).st).st).st hnt
      simpa [keySourcePath, hnt] using hb
    | regular =>
      have hfr := swarmKeyStep_files_regular env (applyAnswers (loadCfg s0).2 ans)
        (initializeIpfsRun env (killDaemonRun
          (installKuboRun env (installToolsRun env (loadCfg s0).1).st).st).st).st hnt
      rw [hfr, f_files]
      have hex := (hregs hnt).2.1
      simp only [fileExists] at hex
      rw [loadCfg_files s0] at hex
      obtain ⟨K, hK⟩ := Option.isSome_iff_exists.mp hex
      exact ⟨K, by simpa [keySourcePath, hnt] using hK⟩
  obtain ⟨K, hK⟩ := hsrc5
  have hkey5 : (swarmKeyStep env (applyAnswers (loadCfg s0).2 ans) (initializeIpfsRun env
      (killDaemonRun (installKuboRun env (installToolsRun env (loadCfg s0).1).st).st).st).st).2.swarmKey
      = some (keySourcePath ans) := by
    rw [hcfg5]
    exact initFinalCfg_swarmKey ans (loadCfg s0).2 (fun hr => (hregs hr).1)
  have hne := keySourcePath_ne ans (fun hr => (hregs hr).1)
  have hconf := configureIpfsRun_key env _ _ (keySourcePath ans) K hkey5 hne hK
  have hstate := initSteps_ok_state env (applyAnswers (loadCfg s0).2 ans) (loadCfg s0).1 h1 h2 h4
  rw [hconf] at hstate
  rw [hstate]
  refine ⟨K, ?_, ?_, ?_, ?_, ?_, ?_, ?_, fun hr => ⟨(hregs hr).1, (hregs hr).2.2⟩⟩
  · exact d2.trans f_tools
  · exact d3.trans f_kubo
  · exact d4.trans c1
  · exact d5.trans f_dir
  · exact d1.trans (congrArg some hcfg5)
  · by_cases hpq : keySourcePath ans = IPFS_SWARM_KEY_PATH
    · rw [hpq]
      exact getFile_setFile_self IPFS_SWARM_KEY_PATH K _
    · rw [getFile_setFile_ne IPFS_SWARM_KEY_PATH (keySourcePath ans) K _ hpq]
      exact hK
  · exact getFile_setFile_self IPFS_SWARM_KEY_PATH K _

/-- A state satisfying the guarantees of a successful init run is a fixed
point of init under the same answers, whatever the oracle outcomes and
whether or not a daemon is running: the persisted record and every file are
unchanged by the re-run. -/
theorem initRun_stable (ans : Answers) (env : Env) (s1 : St) (R : Cfg) (K : String) (b : Bool)
    (htools : s1.toolsInstalled = true) (hkubo : s1.kuboInstalled = true)
    (hipfs : s1.ipfsInitialized = true) (hdir : s1.configDirExists = true)
    (hcfg : s1.config = some R)
    (hR1 : R.nodeType = ans.nodeType) (hR2 : R.basePort = ans.basePort)
    (hR3 : R.swarmKeyPath = ans.swarmKeyPath)
    (hR4 : R.bootstrapMultiaddr = ans.bootstrapMultiaddr)
    (hRk : R.swarmKey = some (keySourcePath ans))
    (hne : keySourcePath ans ≠ "")
    (hsrc : getFile (keySourcePath ans) s1.files = some K)
    (hinst : getFile IPFS_SWARM_KEY_PATH s1.files = some K)
    (hreg : ans.nodeType = NodeType.regular → truthy ans.bootstrapMultiaddr = true) :
    (initRun ans env { s1 with daemonRunning := b }).state.config = some R ∧
    (initRun ans env { s1 with daemonRunning := b }).state.files = s1.files := by
  have hbcfg : ({ s1 with daemonRunning := b } : St).config = some R := hcfg
  have hbtools : ({ s1 with daemonRunning := b } : St).toolsInstalled = true := htools
  have hbkubo : ({ s1 with daemonRunning := b } : St).kuboInstalled = true := hkubo
  have hbdir : ({ s1 with daemonRunning := b } : St).configDirExists = true := hdir
  have hbfiles : ({ s1 with daemonRunning := b } : St).files = s1.files := rfl
  have hs2cfg : ({ { s1 with daemonRunning := b } with daemonRunning := false } : St).config
      = some R := hcfg
  have hs2files : ({ { s1 with daemonRunning := b } with daemonRunning := false } : St).files
      = s1.files := rfl
  have hkp : ans.nodeType = NodeType.regular → truthy ans.swarmKeyPath = true := by
    intro hr
    cases hsk : ans.swarmKeyPath with
    | none =>
      exfalso
      apply hne
      simp [keySourcePath, hr, hsk]
    | some p =>
      have hpne : p ≠ "" := by
        intro hp
        apply hne
        simp [keySourcePath, hr, hsk, hp]
      simp [truthy, hpne]
  have hload : loadCfg { s1 with daemonRunning := b } = ({ s1 with daemonRunning := b }, R) := by
    have hl := loadCfg_some { s1 with daemonRunning := b } R hbcfg
    rw [St_set_dir { s1 with daemonRunning := b } true hbdir] at hl
    exact hl
  have hA : applyAnswers R ans = R := applyAnswers_id R ans hR1 hR2 hR3 hR4
  have hvr : validationFailed { s1 with daemonRunning := b } R = false := by
    cases hnt : ans.nodeType with
    | bootstrap =>
      have hRb : R.nodeType = NodeType.bootstrap := hR1.trans hnt
      simp [validationFailed, hRb]
    | regular =>
      have hRr : R.nodeType = NodeType.regular := hR1.trans hnt
      have h1R : truthy R.swarmKeyPath = true := by rw [hR3]; exact hkp hnt
      have h2R : fileExists { s1 with daemonRunning := b } (R.swarmKeyPath.getD "") = true := by
        have hkeq : R.swarmKeyPath.getD "" = keySourcePath ans := by
          rw [hR3]
          simp [keySourcePath, hnt]
        rw [hkeq]
        simp only [fileExists, hbfiles, hsrc, Option.isSome_some]
      have h3R : truthy R.bootstrapMultiaddr = true := by rw [hR4]; exact hreg hnt
      simp [validationFailed, hRr, h1R, h2R, h3R]
  have hrun : initRun ans env { s1 with daemonRunning := b }
      = initSteps env R { s1 with daemonRunning := b } := by
    simp only [initRun, hload, hA]
    rw [hvr]
    simp
  have e1 : installToolsRun env { s1 with daemonRunning := b }
      = { st := { s1 with daemonRunning := b }, cmds := [], ok := true } :=
    installToolsRun_noop env _ hbtools
  have e2 : installKuboRun env { s1 with daemonRunning := b }
      = { st := { s1 with daemonRunning := b }, cmds := [kuboProbeCmd], ok := true } :=
    installKuboRun_noop env _ hbkubo
  have e3 : (killDaemonRun { s1 with daemonRunning := b }).st
      = { { s1 with daemonRunning := b } with daemonRunning := false } :=
    (killDaemonRun_st _).1
  have e4 : initializeIpfsRun env { { s1 with daemonRunning := b } with daemonRunning := false }
      = { st := { { s1 with daemonRunning := b } with daemonRunning := false }, cmds := [],
          ok := true } :=
    initializeIpfsRun_noop env _ hipfs
  have h1x : (installToolsRun env { s1 with daemonRunning := b }).ok = true := by rw [e1]
  have h2x : (installKuboRun env
      (installToolsRun env { s1 with daemonRunning := b }).st).ok = true := by
    rw [e1]
    show (installKuboRun env { s1 with daemonRunning := b }).ok = true
    rw [e2]
  have h4x : (initializeIpfsRun env (killDaemonRun (installKuboRun env
      (installToolsRun env { s1 with daemonRunning := b }).st).st).st).ok = true := by
    rw [e1]
    show (initializeIpfsRun env (killDaemonRun
      (installKuboRun env { s1 with daemonRunning := b }).st).st).ok = true
    rw [e2]
    show (initializeIpfsRun env
      (killDaemonRun { s1 with daemonRunning := b }).st).ok = true
    rw [e3, e4]
  have hchain : (initializeIpfsRun env (killDaemonRun (installKuboRun env
      (installToolsRun env { s1 with daemonRunning := b }).st).st).st).st
      = { { s1 with daemonRunning := b } with daemonRunning := false } := by
    rw [e1]
    show (initializeIpfsRun env (killDaemonRun
      (installKuboRun env { s1 with daemonRunning := b }).st).st).st = _
    rw [e2]
    show (initializeIpfsRun env (killDaemonRun { s1 with daemonRunning := b }).st).st = _
    rw [e3, e4]
  have hstate := initSteps_ok_state env R { s1 with daemonRunning := b } h1x h2x h4x
  rw [hchain] at hstate
  have hfix : swarmKeyStep env R { { s1 with daemonRunning := b } with daemonRunning := false }
      = ({ { s1 with daemonRunning := b } with daemonRunning := false }, R) := by
    apply swarmKeyStep_fixed
    · exact hs2cfg
    · intro hb
      have hkeq : keySourcePath ans = SWARM_KEY_PATH := by
        simp [keySourcePath, hR1.symm.trans hb]
      rw [hs2files, ← hkeq, hsrc]
      rfl
    · intro hb
      have hkeq : keySourcePath ans = SWARM_KEY_PATH := by
        simp [keySourcePath, hR1.symm.trans hb]
      rw [hRk, hkeq]
    · intro hr
      have hra : ans.nodeType = NodeType.regular := hR1.symm.trans hr
      cases hsk : ans.swarmKeyPath with
      | none =>
        exfalso
        apply hne
        simp [keySourcePath, hra, hsk]
      | some p =>
        have hkeq : keySourcePath ans = p := by simp [keySourcePath, hra, hsk]
        rw [hRk, hR3, hsk, hkeq]
  have hg2 : getFile (keySourcePath ans)
      ({ { s1 with daemonRunning := b } with daemonRunning := false } : St).files = some K := by
    rw [hs2files]
    exact hsrc
  have hconf := configureIpfsRun_key env R
    { { s1 with daemonRunning := b } with daemonRunning := false } (keySourcePath ans) K hRk hne hg2
  have hi2 : getFile IPFS_SWARM_KEY_PATH
      ({ { s1 with daemonRunning := b } with daemonRunning := false } : St).files = some K := by
    rw [hs2files]
    exact hinst
  have hsf : setFile IPFS_SWARM_KEY_PATH K
      ({ { s1 with daemonRunning := b } with daemonRunning := false } : St).files
      = ({ { s1 with daemonRunning := b } with daemonRunning := false } : St).files :=
    setFile_self _ _ _ hi2
  have hfinal : (initRun ans env { s1 with daemonRunning := b }).state
      = { { s1 with daemonRunning := b } with daemonRunning := false } := by
    rw [hrun, hstate, hfix]
    show (configureIpfsRun env R
      { { s1 with daemonRunning := b } with daemonRunning := false }).st = _
    rw [hconf]
    show ({ { { s1 with daemonRunning := b } with daemonRunning := false } with
      files := setFile IPFS_SWARM_KEY_PATH K
        ({ { s1 with daemonRunning := b } with daemonRunning := false } : St).files } : St) = _
    rw [hsf]
  rw [hfinal]
  exact ⟨hs2cfg, hs2files⟩

/-- C1: re-running init with the same answers on the state a successful init
run produced (an already initialized node, the daemon possibly stopped or
restarted in between) persists the identical configuration record and
performs no destructive action: the whole file map, hence every file and its
content, is unchanged by the re-run, whatever the oracle outcomes of the
second run. -/
theorem C1_init_rerun_idempotent (ans : Answers) (env1 env2 : Env) (s0 : St) (b : Bool)
    (h : (initRun ans env1 s0).ok = true) :
    (initRun ans env2 { (initRun ans env1 s0).state with daemonRunning := b }).state.config
        = (initRun ans env1 s0).state.config ∧
    (initRun ans env2 { (initRun ans env1 s0).state with daemonRunning := b }).state.files
        = (initRun ans env1 s0).state.files := by
  obtain ⟨K, htools, hkubo, hipfs, hdir, hcfg, hsrc, hinst, hregs⟩ :=
    initRun_ok_post ans env1 s0 h
  obtain ⟨hf1, hf2, hf3, hf4⟩ := initFinalCfg_fields ans (loadCfg s0).2
  have hRk := initFinalCfg_swarmKey ans (loadCfg s0).2 (fun hr => (hregs hr).1)
  have hne := keySourcePath_ne ans (fun hr => (hregs hr).1)
  have hst := initRun_stable ans env2 (initRun ans env1 s0).state
    (initFinalCfg ans (loadCfg s0).2) K b htools hkubo hipfs hdir hcfg hf1 hf2 hf3 hf4
    hRk hne hsrc hinst (fun hr => (hregs hr).2)
  rw [hcfg]
  exact hst

/-- C1 witness: a concrete successful bootstrap init on a fresh machine,
re-run with the same answers. -/
theorem C1_witness :
    (initRun ansBootstrap envAllOk
        { (initRun ansBootstrap envAllOk st0).state with daemonRunning := false }).state.config
      = (initRun ansBootstrap envAllOk st0).state.config ∧
    (initRun ansBootstrap envAllOk
        { (initRun ansBootstrap envAllOk st0).state with daemonRunning := false }).state.files
      = (initRun ansBootstrap envAllOk st0).state.files :=
  C1_init_rerun_idempotent ansBootstrap envAllOk envAllOk st0 false (by decide)

/-- C5 witness: concrete instances of both conjuncts. -/
theorem C5_witness :
    bootstrapAddrValidate "/ip4/10.0.0.1/tcp/4001" = false ∧
    initRun ansRegularBadAddr envAllOk stWithUserKey
      = initSteps envAllOk (applyAnswers (loadCfg stWithUserKey).2 ansRegularBadAddr)
          (loadCfg stWithUserKey).1 :=
  ⟨C5_p2p_validation_interactive_only.1 "/ip4/10.0.0.1/tcp/4001" (by decide),
    C5_p2p_validation_interactive_only.2 ansRegularBadAddr envAllOk stWithUserKey (by decide)
      (by decide) (by decide) (by decide)⟩

end IpfsSwarmCli
